import Mathlib

/-!
Verification of the Book-Tracker repository (Express backend `server.js`,
React client `App.jsx`) against its natural-language specification.

The backend keeps a single SQLite table of books and exposes CRUD routes
plus a Google Books search proxy.  We embed the store as a list of rows
together with the AUTOINCREMENT counter, and each route handler as a pure
function from the current store and the parsed request to a result and the
next store.  Request-body fields are `Option String`: `none` models an
absent JSON field, `some s` a string value.  JavaScript truthiness on such
a value (`if (title)`, `if (!query)`, `if (statusFilter)`) is `optTruthy`.
-/

/-- A row of the `books` table (`CREATE TABLE books` in server.js):
`id INTEGER PRIMARY KEY AUTOINCREMENT, title TEXT NOT NULL, author TEXT,
status TEXT NOT NULL, notes TEXT, coverImageUrl TEXT`.  Nullable columns
are `Option String`. -/
structure Book where
  id : Nat
  title : String
  author : Option String
  status : String
  notes : Option String
  coverImageUrl : Option String
deriving Repr, DecidableEq

/-- The store state: the rows of the `books` table in insertion (rowid)
order, plus the next AUTOINCREMENT id to assign. -/
structure Store where
  rows : List Book
  nextId : Nat
deriving Repr, DecidableEq

/-- The freshly created database: empty table, AUTOINCREMENT starts at 1. -/
def initStore : Store := { rows := [], nextId := 1 }

/-- JavaScript truthiness of a request field that is either absent
(`undefined`) or a string: `undefined` and the empty string are falsy. -/
def optTruthy : Option String → Bool
  | none => false
  | some s => !s.isEmpty

/-- The JSON body of `POST /books`: `{ title, author, status, notes,
coverImageUrl }`, each field possibly absent. -/
structure BookBody where
  title : Option String
  author : Option String
  status : Option String
  notes : Option String
  coverImageUrl : Option String
deriving Repr, DecidableEq

/-- Outcome of `POST /books`. -/
inductive CreateResult where
  | badRequest
  | created (book : Book)
deriving Repr, DecidableEq

/-- HTTP status code of a `POST /books` outcome. -/
def CreateResult.statusCode : CreateResult → Nat
  | .badRequest => 400
  | .created _ => 201

/-- Handler of `POST /books` (server.js lines 81-100): rejects with 400 if
`!title || !status`; otherwise inserts the row with the next AUTOINCREMENT
id and answers 201 with the created Book including that id. -/
def createBook (st : Store) (body : BookBody) : CreateResult × Store :=
  if !optTruthy body.title || !optTruthy body.status then
    (.badRequest, st)
  else
    let b : Book :=
      { id := st.nextId
        title := body.title.getD ""
        author := body.author
        status := body.status.getD ""
        notes := body.notes
        coverImageUrl := body.coverImageUrl }
    (.created b, { rows := st.rows ++ [b], nextId := st.nextId + 1 })

/-- The JSON body of `PUT /books/:id`: any subset of the five updatable
fields; `some v` means the field was present in the payload. -/
structure UpdateBody where
  title : Option String
  author : Option String
  status : Option String
  notes : Option String
  coverImageUrl : Option String
deriving Repr, DecidableEq

/-- `updates.length === 0` in server.js: no recognized field is present. -/
def UpdateBody.isEmpty (body : UpdateBody) : Bool :=
  body.title.isNone && body.author.isNone && body.status.isNone &&
    body.notes.isNone && body.coverImageUrl.isNone

/-- The effect of the dynamically built `UPDATE books SET ...` on one
matching row: each supplied field is overwritten, the rest keep their
values; the id is never part of the SET clause. -/
def applyUpdates (body : UpdateBody) (b : Book) : Book :=
  { id := b.id
    title := match body.title with | some t => t | none => b.title
    author := match body.author with | some a => some a | none => b.author
    status := match body.status with | some s => s | none => b.status
    notes := match body.notes with | some n => some n | none => b.notes
    coverImageUrl :=
      match body.coverImageUrl with | some c => some c | none => b.coverImageUrl }

/-- Outcome of `PUT /books/:id`. -/
inductive UpdateResult where
  | badRequest
  | notFound
  | updated (id : Nat)
deriving Repr, DecidableEq

/-- HTTP status code of a `PUT /books/:id` outcome. -/
def UpdateResult.statusCode : UpdateResult → Nat
  | .badRequest => 400
  | .notFound => 404
  | .updated _ => 200

/-- Handler of `PUT /books/:id` (server.js lines 103-135): 400 if the
payload holds no recognized field; otherwise runs
`UPDATE books SET ... WHERE id = ?`, answering 404 when `this.changes`
is 0 (no row matched) and 200 otherwise. -/
def updateBook (st : Store) (id : Nat) (body : UpdateBody) :
    UpdateResult × Store :=
  if body.isEmpty then
    (.badRequest, st)
  else if st.rows.any (fun b => b.id == id) then
    (.updated id,
      { st with
          rows := st.rows.map (fun b =>
            if b.id == id then applyUpdates body b else b) })
  else
    (.notFound, st)

/-- Outcome of `DELETE /books/:id`. -/
inductive DeleteResult where
  | notFound
  | deleted (id : Nat)
deriving Repr, DecidableEq

/-- HTTP status code of a `DELETE /books/:id` outcome. -/
def DeleteResult.statusCode : DeleteResult → Nat
  | .notFound => 404
  | .deleted _ => 200

/-- Handler of `DELETE /books/:id` (server.js lines 138-152): runs
`DELETE FROM books WHERE id = ?`, answering 404 when `this.changes` is 0
and 200 otherwise. -/
def deleteBook (st : Store) (id : Nat) : DeleteResult × Store :=
  if st.rows.any (fun b => b.id == id) then
    (.deleted id, { st with rows := st.rows.filter (fun b => !(b.id == id)) })
  else
    (.notFound, st)

/-- Handler of `GET /books` (server.js lines 61-78): when the `status`
query parameter is truthy a `WHERE status = ?` clause is added, otherwise
the whole table is returned; no ORDER BY, rows come back in rowid
(insertion) order. -/
def listBooks (st : Store) (statusFilter : Option String) : List Book :=
  if optTruthy statusFilter then
    st.rows.filter (fun b => b.status == statusFilter.getD "")
  else
    st.rows

/-- Store states reachable from the fresh database by any sequence of the
three mutating routes, each applied to an arbitrary parsed request. -/
inductive Reachable : Store → Prop where
  | init : Reachable initStore
  | create {st : Store} (body : BookBody) :
      Reachable st → Reachable (createBook st body).2
  | update {st : Store} (id : Nat) (body : UpdateBody) :
      Reachable st → Reachable (updateBook st id body).2
  | delete {st : Store} (id : Nat) :
      Reachable st → Reachable (deleteBook st id).2

/-- Structural well-formedness of a store: ids are strictly increasing
along the row list (hence unique, in insertion order) and below the
AUTOINCREMENT counter. -/
def StoreWF (st : Store) : Prop :=
  (∀ b ∈ st.rows, b.id < st.nextId) ∧
    st.rows.Pairwise (fun a b => a.id < b.id)

/-- The `imageLinks` object of a Google Books volume; either link may be
absent. -/
structure ImageLinks where
  thumbnail : Option String
  smallThumbnail : Option String
deriving Repr, DecidableEq

/-- The `volumeInfo` object of a Google Books item, restricted to the
fields server.js reads. -/
structure VolumeInfo where
  title : Option String
  authors : Option (List String)
  imageLinks : Option ImageLinks
  description : Option String
deriving Repr, DecidableEq

/-- One element of `data.items` in the Google Books response. -/
structure SearchItem where
  volumeInfo : VolumeInfo
deriving Repr, DecidableEq

/-- The parsed JSON body of a Google Books response; `items` may be
absent. -/
structure GoogleData where
  items : Option (List SearchItem)
deriving Repr, DecidableEq

/-- What the outbound `fetch` of the proxy produced: either the call
itself threw (network failure), or a reply with an HTTP status and a
parsed body. -/
inductive Upstream where
  | networkError
  | reply (status : Nat) (data : GoogleData)
deriving Repr, DecidableEq

/-- One entry of the array `GET /search-books` answers with. -/
structure SearchResult where
  title : String
  author : String
  coverImageUrl : Option String
  description : String
deriving Repr, DecidableEq

/-- Body of a `GET /search-books` response: an error object or the mapped
result array. -/
inductive SearchBody where
  | error (msg : String)
  | books (results : List SearchResult)
deriving Repr, DecidableEq

/-- The `maxResults` parameter server.js puts in the Google Books request
URL. -/
def googleBooksMaxResults : Nat := 5

/-- The configuration-error message server.js answers with when the API
key is unset. -/
def configErrorMsg : String :=
  "Google Books API key is not configured on the server. Please check backend setup."

/-- The per-item mapping of server.js lines 182-188: title falls back to
the default when falsy, authors are comma-joined when the array exists
(and default otherwise), cover prefers `thumbnail` over `smallThumbnail`
and is null without `imageLinks`, description falls back to a default. -/
def mapItem (item : SearchItem) : SearchResult :=
  { title :=
      match item.volumeInfo.title with
      | some t => if t.isEmpty then "N/A" else t
      | none => "N/A"
    author :=
      match item.volumeInfo.authors with
      | some as => String.intercalate ", " as
      | none => "N/A"
    coverImageUrl :=
      match item.volumeInfo.imageLinks with
      | some il => if optTruthy il.thumbnail then il.thumbnail else il.smallThumbnail
      | none => none
    description :=
      match item.volumeInfo.description with
      | some d => if d.isEmpty then "No description available." else d
      | none => "No description available." }

/-- Handler of `GET /search-books` (server.js lines 156-195): 400 if the
`q` query parameter is falsy; 500 if the API key is falsy; on a fetch
failure 500; on a non-ok upstream reply the upstream status is forwarded;
on an ok reply the items (or `[]` when absent) are mapped.  The handler
never touches the database, so the store passes through unchanged. -/
def searchHandler (st : Store) (apiKey : Option String) (q : Option String)
    (up : Upstream) : (Nat × SearchBody) × Store :=
  if !optTruthy q then
    ((400, .error "Search query (q) is required."), st)
  else if !optTruthy apiKey then
    ((500, .error configErrorMsg), st)
  else
    match up with
    | .networkError =>
        ((500, .error "Failed to search books from external API. Check server console for details."), st)
    | .reply status data =>
        if 200 ≤ status ∧ status < 300 then
          ((200, .books ((data.items.getD []).map mapItem)), st)
        else
          ((status, .error "Google Books API error. Check server console for details."), st)

/-- The three status strings the client partitions by. -/
def validStatuses : List String := ["Want to Read", "Reading", "Finished"]

/-- The derived view of App.jsx lines 187-191: the cached collection
filtered into the three status buckets. -/
def categorizedBooks (books : List Book) :
    List Book × List Book × List Book :=
  (books.filter (fun b => b.status == "Want to Read"),
   books.filter (fun b => b.status == "Reading"),
   books.filter (fun b => b.status == "Finished"))

lemma applyUpdates_id (body : UpdateBody) (b : Book) :
    (applyUpdates body b).id = b.id := rfl

lemma update_row_id (body : UpdateBody) (id : Nat) (b : Book) :
    (if (b.id == id) = true then applyUpdates body b else b).id = b.id := by
  by_cases hbi : (b.id == id) = true <;> simp [hbi, applyUpdates_id]

lemma createBook_wf {st : Store} (h : StoreWF st) (body : BookBody) :
    StoreWF (createBook st body).2 := by
  unfold createBook
  by_cases hc : (!optTruthy body.title || !optTruthy body.status) = true
  · rw [if_pos hc]
    exact h
  · rw [if_neg hc]
    refine ⟨?_, ?_⟩
    · intro c hcmem
      rcases List.mem_append.mp hcmem with hm | hm
      · exact Nat.lt_trans (h.1 c hm) (Nat.lt_succ_self _)
      · simp only [List.mem_singleton] at hm
        subst hm
        exact Nat.lt_succ_self _
    · refine List.pairwise_append.mpr ⟨h.2, List.pairwise_singleton _ _, ?_⟩
      intro a ha b hb
      simp only [List.mem_singleton] at hb
      subst hb
      exact h.1 a ha

lemma updateBook_wf {st : Store} (h : StoreWF st) (id : Nat)
    (body : UpdateBody) : StoreWF (updateBook st id body).2 := by
  unfold updateBook
  by_cases he : body.isEmpty = true
  · rw [if_pos he]
    exact h
  · rw [if_neg he]
    by_cases hm : (st.rows.any fun b => b.id == id) = true
    · rw [if_pos hm]
      refine ⟨?_, ?_⟩
      · intro c hcmem
        rcases List.mem_map.mp hcmem with ⟨d, hd, hfd⟩
        have hid : c.id = d.id := by
          rw [← hfd]
          exact update_row_id body id d
        rw [hid]
        exact h.1 d hd
      · rw [List.pairwise_map]
        refine h.2.imp ?_
        intro a b hab
        rw [update_row_id body id a, update_row_id body id b]
        exact hab
    · rw [if_neg hm]
      exact h

lemma deleteBook_wf {st : Store} (h : StoreWF st) (id : Nat) :
    StoreWF (deleteBook st id).2 := by
  unfold deleteBook
  by_cases hm : (st.rows.any fun b => b.id == id) = true
  · rw [if_pos hm]
    refine ⟨?_, ?_⟩
    · intro c hcmem
      exact h.1 c (List.mem_of_mem_filter hcmem)
    · exact List.Pairwise.sublist (List.filter_sublist _) h.2
  · rw [if_neg hm]
    exact h

lemma reachable_wf {st : Store} (h : Reachable st) : StoreWF st := by
  induction h with
  | init => exact ⟨by simp [initStore], by simp [initStore]⟩
  | create body _ ih => exact createBook_wf ih body
  | update id body _ ih => exact updateBook_wf ih id body
  | delete id _ ih => exact deleteBook_wf ih id

lemma string_isEmpty_iff (s : String) : s.isEmpty = true ↔ s = "" :=
  String.isEmpty_iff s

lemma optTruthy_some_iff (s : String) :
    optTruthy (some s) = true ↔ s ≠ "" := by
  simp only [optTruthy, Bool.not_eq_true']
  rw [Bool.eq_false_iff]
  exact not_congr (string_isEmpty_iff s)

lemma pairwise_id_unique {l : List Book}
    (hp : l.Pairwise (fun a b => a.id < b.id)) :
    ∀ {a b : Book}, a ∈ l → b ∈ l → a.id = b.id → a = b := by
  induction l with
  | nil =>
      intro a b ha
      simp at ha
  | cons c t ih =>
      rw [List.pairwise_cons] at hp
      intro a b ha hb hid
      rcases List.mem_cons.mp ha with rfl | ha2 <;>
        rcases List.mem_cons.mp hb with rfl | hb2
      · rfl
      · exact absurd hid (Nat.ne_of_lt (hp.1 b hb2))
      · exact absurd hid.symm (Nat.ne_of_lt (hp.1 a ha2))
      · exact ih hp.2 ha2 hb2 hid

/-- Concrete request bodies and stores used by the witnesses. -/
def exBody1 : BookBody :=
  ⟨some "Dune", some "Frank Herbert", some "Reading", none, none⟩

def exBody2 : BookBody :=
  ⟨some "Emma", none, some "Finished", some "great", none⟩

def exSt1 : Store := (createBook initStore exBody1).2

def exSt2 : Store := (createBook exSt1 exBody2).2

lemma exSt1_reachable : Reachable exSt1 :=
  Reachable.create exBody1 Reachable.init

lemma exSt2_reachable : Reachable exSt2 :=
  Reachable.create exBody2 exSt1_reachable

/-- C10: a List request whose status filter is present but equal to the
empty string is falsy in the handler's truthiness test, so no WHERE clause
is added and the full unfiltered collection is returned. -/
theorem c10_list_empty_filter (st : Store) :
    listBooks st (some "") = st.rows ∧
      listBooks st (some "") = listBooks st none :=
  ⟨rfl, rfl⟩

/-- C6: List with no filter returns all stored rows, in insertion order
(ids strictly increase along the result); List with a non-empty status
filter returns exactly the stored rows with that status (an order-
preserving sublist of the table). -/
theorem c6_list_contract (st : Store) (h : Reachable st) (s : String)
    (hs : s ≠ "") :
    listBooks st none = st.rows ∧
    (listBooks st none).Pairwise (fun a b => a.id < b.id) ∧
    List.Sublist (listBooks st (some s)) st.rows ∧
    (∀ b : Book, b ∈ listBooks st (some s) ↔ b ∈ st.rows ∧ b.status = s) ∧
    (listBooks st (some s)).Pairwise (fun a b => a.id < b.id) := by
  have hwf := reachable_wf h
  have hfil : listBooks st (some s) =
      st.rows.filter (fun b => b.status == s) := by
    unfold listBooks
    rw [if_pos ((optTruthy_some_iff s).mpr hs)]
    rfl
  refine ⟨rfl, hwf.2, ?_, ?_, ?_⟩
  · rw [hfil]
    exact List.filter_sublist _
  · intro b
    rw [hfil, List.mem_filter]
    simp [beq_iff_eq]
  · rw [hfil]
    exact List.Pairwise.sublist (List.filter_sublist _) hwf.2

/-- C6 witness: a store holding a "Reading" and a "Finished" book,
filtered by "Reading". -/
theorem c6_list_contract_witness :
    Reachable exSt2 ∧ ("Reading" : String) ≠ "" ∧
      listBooks exSt2 none = exSt2.rows :=
  ⟨exSt2_reachable, by decide,
    (c6_list_contract exSt2 exSt2_reachable "Reading" (by decide)).1⟩

/-- A create request whose status string lies outside the enumeration:
the handler only tests truthiness, so it is accepted. -/
def cexCreateBody : BookBody := ⟨some "Dune", none, some "Banana", none, none⟩

/-- An update payload supplying an empty title: the handler only tests
`title !== undefined`, so the SET clause writes the empty string. -/
def cexUpdateBody : UpdateBody := ⟨some "", none, none, none, none⟩

/-- The store after creating the "Banana"-status book and then blanking
its title: one row with empty title and out-of-enumeration status. -/
def cexStore : Store :=
  (updateBook (createBook initStore cexCreateBody).2 1 cexUpdateBody).2

/-- C1 counterexample: a reachable store holds a row whose title is empty
and whose status is outside the enumeration, because Create never checks
enumeration membership and Update accepts empty strings. -/
theorem c1_counterexample :
    ¬ (∀ st : Store, Reachable st → ∀ b ∈ st.rows,
        b.title ≠ "" ∧ b.status ∈ validStatuses) := by
  intro hclaim
  have hreach : Reachable cexStore :=
    Reachable.update 1 cexUpdateBody (Reachable.create cexCreateBody Reachable.init)
  have hmem : (⟨1, "", none, "Banana", none, none⟩ : Book) ∈ cexStore.rows := by
    decide
  exact (hclaim cexStore hreach _ hmem).1 rfl

/-- An update payload whose supplied title and status values (if any) are
non-empty strings. -/
def GoodUpdate (body : UpdateBody) : Prop :=
  (∀ t, body.title = some t → t ≠ "") ∧ (∀ s, body.status = some s → s ≠ "")

/-- Store states reachable when every Update payload supplies only
non-empty title/status values; Create and Delete are unconstrained. -/
inductive ReachableGood : Store → Prop where
  | init : ReachableGood initStore
  | create {st : Store} (body : BookBody) :
      ReachableGood st → ReachableGood (createBook st body).2
  | update {st : Store} (id : Nat) (body : UpdateBody) :
      GoodUpdate body → ReachableGood st →
      ReachableGood (updateBook st id body).2
  | delete {st : Store} (id : Nat) :
      ReachableGood st → ReachableGood (deleteBook st id).2

/-- C1 amended: every stored row has a non-empty title and a non-empty
status, in every state reachable by Create, Delete, and Updates whose
supplied title/status values are non-empty; no operation restricts status
to the enumeration, and an arbitrary Update can blank title or status, so
the original invariant fails (see the counterexample). -/
theorem c1_invariant (st : Store) (h : ReachableGood st) :
    ∀ b ∈ st.rows, b.title ≠ "" ∧ b.status ≠ "" := by
  induction h with
  | init =>
      intro b hb
      simp [initStore] at hb
  | @create st body _ ih =>
      intro b hb
      unfold createBook at hb
      by_cases hc : (!optTruthy body.title || !optTruthy body.status) = true
      · rw [if_pos hc] at hb
        exact ih b hb
      · rw [if_neg hc] at hb
        rcases List.mem_append.mp hb with hm | hm
        · exact ih b hm
        · simp only [List.mem_singleton] at hm
          subst hm
          rw [Bool.or_eq_true, not_or] at hc
          have hct : optTruthy body.title = true := by
            have h1 := hc.1
            rw [Bool.not_eq_true'] at h1
            exact eq_true_of_ne_false h1
          have hcs : optTruthy body.status = true := by
            have h1 := hc.2
            rw [Bool.not_eq_true'] at h1
            exact eq_true_of_ne_false h1
          obtain ⟨t, hxt, htn⟩ : ∃ t, body.title = some t ∧ t ≠ "" := by
            cases hx : body.title with
            | none =>
                rw [hx] at hct
                exact absurd hct (by decide)
            | some t =>
                rw [hx] at hct
                exact ⟨t, rfl, (optTruthy_some_iff t).mp hct⟩
          obtain ⟨s, hxs, hsn⟩ : ∃ s, body.status = some s ∧ s ≠ "" := by
            cases hx : body.status with
            | none =>
                rw [hx] at hcs
                exact absurd hcs (by decide)
            | some s =>
                rw [hx] at hcs
                exact ⟨s, rfl, (optTruthy_some_iff s).mp hcs⟩
          constructor
          · show body.title.getD "" ≠ ""
            rw [hxt]
            exact htn
          · show body.status.getD "" ≠ ""
            rw [hxs]
            exact hsn
  | @update st id body hgood _ ih =>
      intro b hb
      unfold updateBook at hb
      by_cases he : body.isEmpty = true
      · rw [if_pos he] at hb
        exact ih b hb
      · rw [if_neg he] at hb
        by_cases hm : (st.rows.any fun x => x.id == id) = true
        · rw [if_pos hm] at hb
          obtain ⟨d, hd, hfd⟩ := List.mem_map.mp hb
          by_cases hdi : (d.id == id) = true
          · rw [if_pos hdi] at hfd
            subst hfd
            constructor
            · rcases hx : body.title with _ | t
              · simpa [applyUpdates, hx] using (ih d hd).1
              · have := hgood.1 t hx
                simpa [applyUpdates, hx] using this
            · rcases hx : body.status with _ | s
              · simpa [applyUpdates, hx] using (ih d hd).2
              · have := hgood.2 s hx
                simpa [applyUpdates, hx] using this
          · rw [if_neg hdi] at hfd
            subst hfd
            exact ih d hd
        · rw [if_neg hm] at hb
          exact ih b hb
  | @delete st id _ ih =>
      intro b hb
      unfold deleteBook at hb
      by_cases hm : (st.rows.any fun x => x.id == id) = true
      · rw [if_pos hm] at hb
        exact ih b (List.mem_of_mem_filter hb)
      · rw [if_neg hm] at hb
        exact ih b hb

/-- C1 amended witness: the store holding one valid created book. -/
theorem c1_invariant_witness :
    ReachableGood exSt1 ∧
      (Book.title ⟨1, "Dune", some "Frank Herbert", "Reading", none, none⟩ ≠ "" ∧
        Book.status ⟨1, "Dune", some "Frank Herbert", "Reading", none, none⟩ ≠ "") :=
  ⟨ReachableGood.create exBody1 ReachableGood.init,
    c1_invariant exSt1 (ReachableGood.create exBody1 ReachableGood.init)
      ⟨1, "Dune", some "Frank Herbert", "Reading", none, none⟩ (by decide)⟩

/-- C2: Create rejects with 400 and leaves the store unchanged exactly
when title or status is absent or empty; otherwise it appends exactly one
new row carrying the next id and the request's fields, answers 201 with
that full Book, and the returned id identifies that row (and no other) in
a subsequent unfiltered List. -/
theorem c2_create_contract (st : Store) (h : Reachable st) (body : BookBody) :
    ((body.title = none ∨ body.title = some "" ∨ body.status = none ∨
        body.status = some "") →
      (createBook st body).1 = .badRequest ∧
      (createBook st body).1.statusCode = 400 ∧
      (createBook st body).2 = st) ∧
    (∀ t s, body.title = some t → t ≠ "" → body.status = some s → s ≠ "" →
      ∃ b : Book, (createBook st body).1 = .created b ∧
        (createBook st body).1.statusCode = 201 ∧
        b.id = st.nextId ∧ b.title = t ∧ b.author = body.author ∧
        b.status = s ∧ b.notes = body.notes ∧
        b.coverImageUrl = body.coverImageUrl ∧
        (createBook st body).2.rows = st.rows ++ [b] ∧
        b ∈ listBooks (createBook st body).2 none ∧
        (∀ c ∈ listBooks (createBook st body).2 none, c.id = b.id → c = b)) := by
  have hwf := reachable_wf h
  constructor
  · intro hbad
    have hcond : (!optTruthy body.title || !optTruthy body.status) = true := by
      rcases hbad with hb | hb | hb | hb
      · rw [hb]
        exact (Bool.or_eq_true _ _).mpr (Or.inl (by decide))
      · rw [hb]
        exact (Bool.or_eq_true _ _).mpr (Or.inl (by decide))
      · rw [hb]
        exact (Bool.or_eq_true _ _).mpr (Or.inr (by decide))
      · rw [hb]
        exact (Bool.or_eq_true _ _).mpr (Or.inr (by decide))
    unfold createBook
    rw [if_pos hcond]
    exact ⟨rfl, rfl, rfl⟩
  · intro t s ht htne hs hsne
    have hct : optTruthy body.title = true := by
      rw [ht]
      exact (optTruthy_some_iff t).mpr htne
    have hcs : optTruthy body.status = true := by
      rw [hs]
      exact (optTruthy_some_iff s).mpr hsne
    have hcond : ¬ ((!optTruthy body.title || !optTruthy body.status) = true) := by
      rw [hct, hcs]
      decide
    have hres : (createBook st body).1 =
        .created ⟨st.nextId, t, body.author, s, body.notes, body.coverImageUrl⟩ := by
      unfold createBook
      rw [if_neg hcond, ht, hs]
      rfl
    have hrows : (createBook st body).2.rows =
        st.rows ++ [⟨st.nextId, t, body.author, s, body.notes, body.coverImageUrl⟩] := by
      unfold createBook
      rw [if_neg hcond, ht, hs]
      rfl
    have hlist : listBooks (createBook st body).2 none =
        (createBook st body).2.rows := rfl
    refine ⟨⟨st.nextId, t, body.author, s, body.notes, body.coverImageUrl⟩,
      hres, ?_, rfl, rfl, rfl, rfl, rfl, rfl, hrows, ?_, ?_⟩
    · rw [hres]
      rfl
    · rw [hlist, hrows]
      exact List.mem_append_right _ (List.mem_singleton_self _)
    · intro c hc hcid
      rw [hlist, hrows] at hc
      rcases List.mem_append.mp hc with h1 | h1
      · exact absurd hcid (Nat.ne_of_lt (hwf.1 c h1))
      · exact List.mem_singleton.mp h1

/-- C2 witness: creating a valid book in the fresh store. -/
theorem c2_create_contract_witness :
    Reachable initStore ∧ exBody1.title = some "Dune" ∧
      ("Dune" : String) ≠ "" ∧ exBody1.status = some "Reading" ∧
      ("Reading" : String) ≠ "" ∧
      (createBook initStore exBody1).1.statusCode = 201 := by
  obtain ⟨b, _, hcode, _⟩ :=
    (c2_create_contract initStore Reachable.init exBody1).2 "Dune" "Reading"
      rfl (by decide) rfl (by decide)
  exact ⟨Reachable.init, rfl, by decide, rfl, by decide, hcode⟩

def exBook1 : Book := ⟨1, "Dune", some "Frank Herbert", "Reading", none, none⟩

def updBody3 : UpdateBody := ⟨none, none, some "Finished", none, none⟩

/-- C3: a successful Update rewrites exactly the supplied fields of the
row matching the id, keeps every unsupplied field of that row, and leaves
every other row (and the id counter) unchanged. -/
theorem c3_update_frame (st : Store) (h : Reachable st) (id : Nat)
    (body : UpdateBody) (b : Book) (hb : b ∈ st.rows) (hbid : b.id = id)
    (hne : body.isEmpty = false) :
    (updateBook st id body).1 = .updated id ∧
    (updateBook st id body).1.statusCode = 200 ∧
    (updateBook st id body).2.nextId = st.nextId ∧
    (updateBook st id body).2.rows.length = st.rows.length ∧
    ∃ b2 : Book, b2 ∈ (updateBook st id body).2.rows ∧ b2.id = b.id ∧
      ((body.title = none → b2.title = b.title) ∧
        (∀ v, body.title = some v → b2.title = v)) ∧
      ((body.author = none → b2.author = b.author) ∧
        (∀ v, body.author = some v → b2.author = some v)) ∧
      ((body.status = none → b2.status = b.status) ∧
        (∀ v, body.status = some v → b2.status = v)) ∧
      ((body.notes = none → b2.notes = b.notes) ∧
        (∀ v, body.notes = some v → b2.notes = some v)) ∧
      ((body.coverImageUrl = none → b2.coverImageUrl = b.coverImageUrl) ∧
        (∀ v, body.coverImageUrl = some v → b2.coverImageUrl = some v)) ∧
      (∀ c ∈ st.rows, c.id ≠ id → c ∈ (updateBook st id body).2.rows) ∧
      (∀ c ∈ (updateBook st id body).2.rows, c.id ≠ id → c ∈ st.rows) ∧
      (∀ c ∈ (updateBook st id body).2.rows, c.id = id → c = b2) := by
  have hwf := reachable_wf h
  have hbeq : (b.id == id) = true := beq_iff_eq.mpr hbid
  have hany : (st.rows.any fun x => x.id == id) = true :=
    List.any_eq_true.mpr ⟨b, hb, hbeq⟩
  have hnemp : ¬ (body.isEmpty = true) := by
    rw [hne]
    decide
  have hres : (updateBook st id body).1 = .updated id := by
    unfold updateBook
    rw [if_neg hnemp, if_pos hany]
  have hrows : (updateBook st id body).2.rows =
      st.rows.map (fun x => if x.id == id then applyUpdates body x else x) := by
    unfold updateBook
    rw [if_neg hnemp, if_pos hany]
  have hnid : (updateBook st id body).2.nextId = st.nextId := by
    unfold updateBook
    rw [if_neg hnemp, if_pos hany]
  refine ⟨hres, by rw [hres]; rfl, hnid, by rw [hrows]; exact List.length_map _ _, ?_⟩
  refine ⟨applyUpdates body b, ?_, applyUpdates_id body b,
    ⟨?_, ?_⟩, ⟨?_, ?_⟩, ⟨?_, ?_⟩, ⟨?_, ?_⟩, ⟨?_, ?_⟩, ?_, ?_, ?_⟩
  · rw [hrows]
    refine List.mem_map.mpr ⟨b, hb, ?_⟩
    rw [if_pos hbeq]
  · intro hv
    simp [applyUpdates, hv]
  · intro v hv
    simp [applyUpdates, hv]
  · intro hv
    simp [applyUpdates, hv]
  · intro v hv
    simp [applyUpdates, hv]
  · intro hv
    simp [applyUpdates, hv]
  · intro v hv
    simp [applyUpdates, hv]
  · intro hv
    simp [applyUpdates, hv]
  · intro v hv
    simp [applyUpdates, hv]
  · intro hv
    simp [applyUpdates, hv]
  · intro v hv
    simp [applyUpdates, hv]
  · intro c hc hcid
    rw [hrows]
    refine List.mem_map.mpr ⟨c, hc, ?_⟩
    rw [if_neg]
    intro hx
    exact hcid (beq_iff_eq.mp hx)
  · intro c hc hcid
    rw [hrows] at hc
    obtain ⟨d, hd, hfd⟩ := List.mem_map.mp hc
    by_cases hdi : (d.id == id) = true
    · rw [if_pos hdi] at hfd
      have : c.id = id := by
        rw [← hfd, applyUpdates_id]
        exact beq_iff_eq.mp hdi
      exact absurd this hcid
    · rw [if_neg hdi] at hfd
      rw [← hfd]
      exact hd
  · intro c hc hcid
    rw [hrows] at hc
    obtain ⟨d, hd, hfd⟩ := List.mem_map.mp hc
    by_cases hdi : (d.id == id) = true
    · have hdb : d = b := by
        refine pairwise_id_unique hwf.2 hd hb ?_
        rw [beq_iff_eq.mp hdi, hbid]
      rw [if_pos hdi, hdb] at hfd
      exact hfd.symm
    · rw [if_neg hdi] at hfd
      rw [← hfd] at hcid
      exact absurd hcid (beq_iff_eq.not.mp hdi)

/-- C3 witness: updating the status of the single stored book. -/
theorem c3_update_frame_witness :
    Reachable exSt1 ∧ exBook1 ∈ exSt1.rows ∧ exBook1.id = 1 ∧
      updBody3.isEmpty = false ∧
      (updateBook exSt1 1 updBody3).1.statusCode = 200 := by
  obtain ⟨_, hcode, _⟩ :=
    c3_update_frame exSt1 exSt1_reachable 1 updBody3 exBook1 (by decide) rfl rfl
  exact ⟨exSt1_reachable, by decide, rfl, rfl, hcode⟩

/-- C4 counterexample: the handler checks for an empty payload before it
touches the table, so an empty payload aimed at a non-existent id gets 400,
not the 404 the claim demands for every unmatched id. -/
theorem c4_counterexample :
    ¬ (∀ (st : Store) (id : Nat) (body : UpdateBody),
        ((∀ b ∈ st.rows, b.id ≠ id) →
          (updateBook st id body).1.statusCode = 404) ∧
        (body.isEmpty = true → (updateBook st id body).1.statusCode = 400) ∧
        (((updateBook st id body).1 = .notFound ∨
            (updateBook st id body).1 = .badRequest) →
          (updateBook st id body).2 = st)) := by
  intro hclaim
  have h404 := (hclaim initStore 2 ⟨none, none, none, none, none⟩).1
    (by intro b hb; simp [initStore] at hb)
  have hcomp : (updateBook initStore 2
      ⟨none, none, none, none, none⟩).1.statusCode = 400 := rfl
  rw [hcomp] at h404
  exact absurd h404 (by decide)

/-- C4 amended: the empty-payload check runs first, so Update returns 400
whenever the payload has no recognized field (even for an unmatched id),
returns 404 when the payload is non-empty and no row matches the id, and
leaves the store unchanged in both failure cases. -/
theorem c4_update_errors (st : Store) (id : Nat) (body : UpdateBody) :
    (body.isEmpty = true →
      (updateBook st id body).1 = .badRequest ∧
      (updateBook st id body).1.statusCode = 400 ∧
      (updateBook st id body).2 = st) ∧
    (body.isEmpty = false → (∀ b ∈ st.rows, b.id ≠ id) →
      (updateBook st id body).1 = .notFound ∧
      (updateBook st id body).1.statusCode = 404 ∧
      (updateBook st id body).2 = st) := by
  constructor
  · intro he
    unfold updateBook
    rw [if_pos he]
    exact ⟨rfl, rfl, rfl⟩
  · intro he hno
    have hnemp : ¬ (body.isEmpty = true) := by
      rw [he]
      decide
    have hany : ¬ ((st.rows.any fun x => x.id == id) = true) := by
      rw [List.any_eq_true]
      rintro ⟨x, hx, hxid⟩
      exact hno x hx (beq_iff_eq.mp hxid)
    unfold updateBook
    rw [if_neg hnemp, if_neg hany]
    exact ⟨rfl, rfl, rfl⟩

/-- C4 witness: an empty payload gets 400 and a non-empty payload aimed at
the empty store gets 404, both leaving the store as it was. -/
theorem c4_update_errors_witness :
    (updateBook initStore 1 ⟨none, none, none, none, none⟩).1.statusCode = 400 ∧
    (updateBook initStore 1 ⟨none, none, none, none, none⟩).2 = initStore ∧
    (updateBook initStore 1 updBody3).1.statusCode = 404 ∧
    (updateBook initStore 1 updBody3).2 = initStore := by
  obtain ⟨_, hc1, hs1⟩ :=
    (c4_update_errors initStore 1 ⟨none, none, none, none, none⟩).1 rfl
  obtain ⟨_, hc2, hs2⟩ := (c4_update_errors initStore 1 updBody3).2 rfl
    (by intro b hb; simp [initStore] at hb)
  exact ⟨hc1, hs1, hc2, hs2⟩

lemma deleteBook_miss {st : Store} {id : Nat}
    (hno : ∀ b ∈ st.rows, b.id ≠ id) :
    (deleteBook st id).1 = .notFound ∧ (deleteBook st id).2 = st := by
  have hany : ¬ ((st.rows.any fun x => x.id == id) = true) := by
    rw [List.any_eq_true]
    rintro ⟨x, hx, hxid⟩
    exact hno x hx (beq_iff_eq.mp hxid)
  unfold deleteBook
  rw [if_neg hany]
  exact ⟨rfl, rfl⟩

/-- C5: Delete answers 404 and leaves the store unchanged when no row
matches the id; otherwise it answers 200, removes exactly the (unique) row
with that id while preserving every other row and their order, a
subsequent unfiltered List excludes the id, and a second Delete of the
same id answers 404. -/
theorem c5_delete_contract (st : Store) (h : Reachable st) (id : Nat) :
    ((∀ b ∈ st.rows, b.id ≠ id) →
      (deleteBook st id).1 = .notFound ∧
      (deleteBook st id).1.statusCode = 404 ∧
      (deleteBook st id).2 = st) ∧
    (∀ b ∈ st.rows, b.id = id →
      (deleteBook st id).1 = .deleted id ∧
      (deleteBook st id).1.statusCode = 200 ∧
      (∀ c ∈ st.rows, c.id = id → c = b) ∧
      (∀ c ∈ st.rows, c.id ≠ id → c ∈ (deleteBook st id).2.rows) ∧
      (∀ c ∈ (deleteBook st id).2.rows, c ∈ st.rows ∧ c.id ≠ id) ∧
      List.Sublist (deleteBook st id).2.rows st.rows ∧
      (∀ c ∈ listBooks (deleteBook st id).2 none, c.id ≠ id) ∧
      (deleteBook (deleteBook st id).2 id).1 = .notFound ∧
      (deleteBook (deleteBook st id).2 id).1.statusCode = 404) := by
  have hwf := reachable_wf h
  constructor
  · intro hno
    obtain ⟨h1, h2⟩ := deleteBook_miss hno
    exact ⟨h1, by rw [h1]; rfl, h2⟩
  · intro b hb hbid
    have hany : (st.rows.any fun x => x.id == id) = true :=
      List.any_eq_true.mpr ⟨b, hb, beq_iff_eq.mpr hbid⟩
    have hres : (deleteBook st id).1 = .deleted id := by
      unfold deleteBook
      rw [if_pos hany]
    have hrows : (deleteBook st id).2.rows =
        st.rows.filter (fun x => !(x.id == id)) := by
      unfold deleteBook
      rw [if_pos hany]
    have hmem2 : ∀ c ∈ (deleteBook st id).2.rows, c ∈ st.rows ∧ c.id ≠ id := by
      intro c hc
      rw [hrows] at hc
      obtain ⟨hcm, hcond⟩ := List.mem_filter.mp hc
      rw [Bool.not_eq_true'] at hcond
      exact ⟨hcm, fun hcid => absurd (beq_iff_eq.mpr hcid) (by rw [hcond]; decide)⟩
    have hmiss2 : ∀ c ∈ (deleteBook st id).2.rows, c.id ≠ id :=
      fun c hc => (hmem2 c hc).2
    obtain ⟨hd2, hs2⟩ := deleteBook_miss hmiss2
    refine ⟨hres, by rw [hres]; rfl, ?_, ?_, hmem2, ?_, ?_, hd2, by rw [hd2]; rfl⟩
    · intro c hc hcid
      refine pairwise_id_unique hwf.2 hc hb ?_
      rw [hcid, hbid]
    · intro c hc hcid
      rw [hrows]
      refine List.mem_filter.mpr ⟨hc, ?_⟩
      rw [Bool.not_eq_true', beq_eq_false_iff_ne]
      exact hcid
    · rw [hrows]
      exact List.filter_sublist _
    · intro c hc
      exact hmiss2 c hc

/-- C5 witness: deleting the single stored book succeeds and a repeat
delete misses; deleting an absent id from the fresh store misses. -/
theorem c5_delete_contract_witness :
    Reachable exSt1 ∧ exBook1 ∈ exSt1.rows ∧ exBook1.id = 1 ∧
      (deleteBook exSt1 1).1.statusCode = 200 ∧
      (deleteBook (deleteBook exSt1 1).2 1).1.statusCode = 404 := by
  obtain ⟨_, hc, _, _, _, _, _, _, hc2⟩ :=
    (c5_delete_contract exSt1 exSt1_reachable 1).2 exBook1 (by decide) rfl
  exact ⟨exSt1_reachable, by decide, rfl, hc, hc2⟩

lemma count_three_filters :
    ∀ books : List Book, (∀ b ∈ books, b.status ∈ validStatuses) →
      (books.filter (fun b => b.status == "Want to Read")).length +
        (books.filter (fun b => b.status == "Reading")).length +
        (books.filter (fun b => b.status == "Finished")).length =
        books.length := by
  intro books
  induction books with
  | nil => intro _; rfl
  | cons c t ih =>
      intro h
      have hc : c.status = "Want to Read" ∨ c.status = "Reading" ∨
          c.status = "Finished" := by
        have := h c (List.mem_cons_self c t)
        simpa [validStatuses] using this
      have iht := ih (fun b hb => h b (List.mem_cons_of_mem c hb))
      rcases hc with hs | hs | hs <;>
        simp [List.filter_cons, hs] <;> omega

/-- C9: on a cached collection whose statuses all lie in the enumeration,
the client's three derived buckets cover the collection, are pairwise
disjoint, draw only from the collection, and account for every element. -/
theorem c9_categorization_partition (books : List Book)
    (h : ∀ b ∈ books, b.status ∈ validStatuses) :
    (∀ b ∈ books,
      b ∈ (categorizedBooks books).1 ∨ b ∈ (categorizedBooks books).2.1 ∨
        b ∈ (categorizedBooks books).2.2) ∧
    (∀ b : Book,
      ¬(b ∈ (categorizedBooks books).1 ∧ b ∈ (categorizedBooks books).2.1) ∧
      ¬(b ∈ (categorizedBooks books).1 ∧ b ∈ (categorizedBooks books).2.2) ∧
      ¬(b ∈ (categorizedBooks books).2.1 ∧ b ∈ (categorizedBooks books).2.2)) ∧
    (∀ b ∈ (categorizedBooks books).1, b ∈ books) ∧
    (∀ b ∈ (categorizedBooks books).2.1, b ∈ books) ∧
    (∀ b ∈ (categorizedBooks books).2.2, b ∈ books) ∧
    (categorizedBooks books).1.length + (categorizedBooks books).2.1.length +
        (categorizedBooks books).2.2.length = books.length := by
  refine ⟨?_, ?_, ?_, ?_, ?_, ?_⟩
  · intro b hb
    have := h b hb
    simp only [validStatuses, List.mem_cons, List.not_mem_nil, or_false]
      at this
    rcases this with hs | hs | hs
    · exact Or.inl (List.mem_filter.mpr ⟨hb, by simp [hs]⟩)
    · exact Or.inr (Or.inl (List.mem_filter.mpr ⟨hb, by simp [hs]⟩))
    · exact Or.inr (Or.inr (List.mem_filter.mpr ⟨hb, by simp [hs]⟩))
  · intro b
    refine ⟨?_, ?_, ?_⟩ <;>
      rintro ⟨h1, h2⟩ <;>
      have e1 := (List.mem_filter.mp h1).2 <;>
      have e2 := (List.mem_filter.mp h2).2 <;>
      simp only [beq_iff_eq] at e1 e2 <;>
      rw [e1] at e2 <;>
      exact absurd e2 (by decide)
  · intro b hb
    exact (List.mem_filter.mp hb).1
  · intro b hb
    exact (List.mem_filter.mp hb).1
  · intro b hb
    exact (List.mem_filter.mp hb).1
  · exact count_three_filters books h

/-- C9 witness: a three-element collection with one book per status. -/
theorem c9_categorization_partition_witness :
    (categorizedBooks [⟨1, "A", none, "Want to Read", none, none⟩,
        ⟨2, "B", none, "Reading", none, none⟩,
        ⟨3, "C", none, "Finished", none, none⟩]).1.length +
      (categorizedBooks [⟨1, "A", none, "Want to Read", none, none⟩,
        ⟨2, "B", none, "Reading", none, none⟩,
        ⟨3, "C", none, "Finished", none, none⟩]).2.1.length +
      (categorizedBooks [⟨1, "A", none, "Want to Read", none, none⟩,
        ⟨2, "B", none, "Reading", none, none⟩,
        ⟨3, "C", none, "Finished", none, none⟩]).2.2.length = 3 :=
  (c9_categorization_partition
    [⟨1, "A", none, "Want to Read", none, none⟩,
     ⟨2, "B", none, "Reading", none, none⟩,
     ⟨3, "C", none, "Finished", none, none⟩] (by decide)).2.2.2.2.2

/-- The item-level facts C7 states about one mapped search result. -/
def ItemMapped (item : SearchItem) (r : SearchResult) : Prop :=
  ((item.volumeInfo.title = none ∨ item.volumeInfo.title = some "") →
    r.title = "N/A") ∧
  (∀ t, item.volumeInfo.title = some t → t ≠ "" → r.title = t) ∧
  (item.volumeInfo.authors = none → r.author = "N/A") ∧
  (∀ as, item.volumeInfo.authors = some as →
    r.author = String.intercalate ", " as) ∧
  (item.volumeInfo.imageLinks = none → r.coverImageUrl = none) ∧
  (∀ il, item.volumeInfo.imageLinks = some il →
    r.coverImageUrl =
      if optTruthy il.thumbnail then il.thumbnail else il.smallThumbnail) ∧
  ((item.volumeInfo.description = none ∨
      item.volumeInfo.description = some "") →
    r.description = "No description available.") ∧
  (∀ d, item.volumeInfo.description = some d → d ≠ "" → r.description = d)

lemma mapItem_spec (item : SearchItem) : ItemMapped item (mapItem item) := by
  refine ⟨?_, ?_, ?_, ?_, ?_, ?_, ?_, ?_⟩
  · rintro (hx | hx)
    · simp [mapItem, hx]
    · simp only [mapItem, hx]
      rfl
  · intro t hx htn
    simp [mapItem, hx, (string_isEmpty_iff t).not.mpr htn,
      Bool.not_eq_true]
  · intro hx
    simp [mapItem, hx]
  · intro as hx
    simp [mapItem, hx]
  · intro hx
    simp [mapItem, hx]
  · intro il hx
    simp [mapItem, hx]
  · rintro (hx | hx)
    · simp [mapItem, hx]
    · simp only [mapItem, hx]
      rfl
  · intro d hx hdn
    simp [mapItem, hx, (string_isEmpty_iff d).not.mpr hdn,
      Bool.not_eq_true]

/-- C7: on a successful upstream reply (2xx, and at most the `maxResults=5`
items the request asked for), Search answers 200 with one result per
upstream item — hence at most 5 — each carrying the claimed title, author,
cover and description mapping; the store is untouched. -/
theorem c7_search_mapping (st : Store) (key q : Option String)
    (status : Nat) (data : GoogleData) (hq : optTruthy q = true)
    (hk : optTruthy key = true) (hok : 200 ≤ status ∧ status < 300)
    (hlen : (data.items.getD []).length ≤ googleBooksMaxResults) :
    ∃ results : List SearchResult,
      (searchHandler st key q (.reply status data)).1 = (200, .books results) ∧
      (searchHandler st key q (.reply status data)).2 = st ∧
      results.length ≤ 5 ∧
      results.length = (data.items.getD []).length ∧
      (∀ r ∈ results, ∃ item ∈ data.items.getD [], ItemMapped item r) := by
  have hnq : ¬ ((!optTruthy q) = true) := by
    rw [hq]
    decide
  have hnk : ¬ ((!optTruthy key) = true) := by
    rw [hk]
    decide
  have hbody : (searchHandler st key q (.reply status data)).1 =
      (200, .books ((data.items.getD []).map mapItem)) := by
    unfold searchHandler
    rw [if_neg hnq, if_neg hnk]
    dsimp only
    rw [if_pos hok]
  have hstore : (searchHandler st key q (.reply status data)).2 = st := by
    unfold searchHandler
    rw [if_neg hnq, if_neg hnk]
    dsimp only
    rw [if_pos hok]
  refine ⟨(data.items.getD []).map mapItem, hbody, hstore, ?_, ?_, ?_⟩
  · rw [List.length_map]
    exact hlen
  · exact List.length_map _ _
  · intro r hr
    obtain ⟨item, hitem, hmi⟩ := List.mem_map.mp hr
    exact ⟨item, hitem, hmi ▸ mapItem_spec item⟩

/-- A one-item upstream reply used by the C7 witness. -/
def exData : GoogleData :=
  ⟨some [⟨⟨some "Dune", some ["Frank Herbert"],
    some ⟨some "http://img", none⟩, none⟩⟩]⟩

/-- C7 witness: a 200 upstream reply with one item. -/
theorem c7_search_mapping_witness :
    optTruthy (some "harry") = true ∧ optTruthy (some "key") = true ∧
      (200 ≤ 200 ∧ 200 < 300) ∧
      (searchHandler initStore (some "key") (some "harry")
        (.reply 200 exData)).2 = initStore := by
  obtain ⟨results, _, hstore, _⟩ :=
    c7_search_mapping initStore (some "key") (some "harry") 200 exData
      (by decide) (by decide) (by decide) (by decide)
  exact ⟨by decide, by decide, by decide, hstore⟩

/-- C8 counterexample: with a valid query and key, a non-success upstream
status (here 403) is forwarded as the response status instead of the 500
the claim demands. -/
theorem c8_counterexample :
    ¬ (∀ (st : Store) (key q : Option String) (status : Nat)
        (data : GoogleData), optTruthy q = true → optTruthy key = true →
        ¬ (200 ≤ status ∧ status < 300) →
        (searchHandler st key q (.reply status data)).1.1 = 500) := by
  intro hclaim
  have h := hclaim initStore (some "key") (some "harry") 403 ⟨none⟩
    (by decide) (by decide) (by decide)
  have hcomp : (searchHandler initStore (some "key") (some "harry")
      (.reply 403 ⟨none⟩)).1.1 = 403 := rfl
  rw [hcomp] at h
  exact absurd h (by decide)

/-- C8 amended: the query check runs first (400 when `q` is missing or
empty, whatever else holds); then a missing credential gives 500 with the
configuration-error message; a failed upstream call gives 500; a
non-success upstream reply is forwarded with its own status, not 500.  The
handler never touches the store. -/
theorem c8_search_errors (st : Store) (key q : Option String)
    (up : Upstream) :
    (optTruthy q = false →
      (searchHandler st key q up).1.1 = 400 ∧
      (searchHandler st key q up).2 = st) ∧
    (optTruthy q = true → optTruthy key = false →
      (searchHandler st key q up).1 = (500, .error configErrorMsg) ∧
      (searchHandler st key q up).2 = st) ∧
    (optTruthy q = true → optTruthy key = true → up = .networkError →
      (searchHandler st key q up).1.1 = 500 ∧
      (searchHandler st key q up).2 = st) ∧
    (∀ status data, optTruthy q = true → optTruthy key = true →
      up = .reply status data → ¬ (200 ≤ status ∧ status < 300) →
      (searchHandler st key q up).1.1 = status ∧
      (searchHandler st key q up).2 = st) := by
  refine ⟨?_, ?_, ?_, ?_⟩
  · intro hq
    have hnq : (!optTruthy q) = true := by
      rw [hq]
      decide
    unfold searchHandler
    rw [if_pos hnq]
    exact ⟨rfl, rfl⟩
  · intro hq hkey
    have hnq : ¬ ((!optTruthy q) = true) := by
      rw [hq]
      decide
    have hnk : (!optTruthy key) = true := by
      rw [hkey]
      decide
    unfold searchHandler
    rw [if_neg hnq, if_pos hnk]
    exact ⟨rfl, rfl⟩
  · intro hq hkey hup
    have hnq : ¬ ((!optTruthy q) = true) := by
      rw [hq]
      decide
    have hnk : ¬ ((!optTruthy key) = true) := by
      rw [hkey]
      decide
    subst hup
    unfold searchHandler
    rw [if_neg hnq, if_neg hnk]
    exact ⟨rfl, rfl⟩
  · intro status data hq hkey hup hnok
    have hnq : ¬ ((!optTruthy q) = true) := by
      rw [hq]
      decide
    have hnk : ¬ ((!optTruthy key) = true) := by
      rw [hkey]
      decide
    subst hup
    unfold searchHandler
    rw [if_neg hnq, if_neg hnk]
    dsimp only
    rw [if_neg hnok]
    exact ⟨rfl, rfl⟩

/-- C8 witness: missing query gives 400; missing key gives the 500
configuration error; network failure gives 500; an upstream 403 is
forwarded as 403. -/
theorem c8_search_errors_witness :
    (searchHandler initStore (some "key") none .networkError).1.1 = 400 ∧
    (searchHandler initStore none (some "harry") .networkError).1 =
      (500, .error configErrorMsg) ∧
    (searchHandler initStore (some "key") (some "harry")
      .networkError).1.1 = 500 ∧
    (searchHandler initStore (some "key") (some "harry")
      (.reply 403 ⟨none⟩)).1.1 = 403 := by
  obtain ⟨h1, _⟩ :=
    (c8_search_errors initStore (some "key") none .networkError).1 rfl
  obtain ⟨h2, _⟩ :=
    (c8_search_errors initStore none (some "harry") .networkError).2.1
      (by decide) rfl
  obtain ⟨h3, _⟩ :=
    (c8_search_errors initStore (some "key") (some "harry")
      .networkError).2.2.1 (by decide) (by decide) rfl
  obtain ⟨h4, _⟩ :=
    (c8_search_errors initStore (some "key") (some "harry")
      (.reply 403 ⟨none⟩)).2.2.2 403 ⟨none⟩ (by decide) (by decide) rfl
      (by decide)
  exact ⟨h1, h2, h3, h4⟩
